/-
Verification of the food-delivery log-file-parser repository.

Shallow embedding of the two source files:
  * `src/mysql_to_s3.py`       — incremental MySQL→S3 extraction with a
    per-table watermark timestamp stored in S3;
  * `src/RDStoS3LogFileParser.py` — CloudWatch log batch decoder/formatter.

Timestamps on the extraction side (MySQL DATETIME values and the watermark
strings compared against them) are modelled as natural numbers on the time
axis; the epoch default "1970-01-01 00:00:00" is the minimum, modelled as 0.
External effects (S3 get/put, SSM get_parameter, pandas read_sql, file
upload) are modelled by outcome parameters injected into the functions that
call them, so every failure path of the Python code is a reachable branch of
the Lean model.
-/
import Mathlib

namespace FoodDelivery

/-! ## Extraction side: data model (`mysql_to_s3.py`) -/

/-- A row of a source table.  Per the data model, `modifiedDate` is nullable
and `createdDate` is non-null. -/
structure Row where
  modifiedDate : Option Nat
  createdDate : Nat
deriving DecidableEq, Repr

/-- Effective change time of a row: `modifiedDate` if present, else
`createdDate`. -/
def effectiveChangeTime (r : Row) : Nat :=
  r.modifiedDate.getD r.createdDate

/-- The WHERE clause of the extraction query (mysql_to_s3.py lines 91–96):
`modifiedDate > '{last_extract}' OR (modifiedDate IS NULL AND createdDate >
'{last_extract}')`.  Under SQL three-valued logic a comparison with a NULL
`modifiedDate` is not true, so the first disjunct holds only for non-null
`modifiedDate`. -/
def rowQualifies (watermark : Nat) (r : Row) : Bool :=
  (match r.modifiedDate with
   | some m => decide (m > watermark)
   | none => false)
  || (r.modifiedDate.isNone && decide (r.createdDate > watermark))

/-- The row set returned by `pd.read_sql` for the extraction query: the
table's rows filtered by the WHERE clause. -/
def selectRows (watermark : Nat) (tableRows : List Row) : List Row :=
  tableRows.filter (rowQualifies watermark)

/-- `df['modifiedDate'].fillna(df['createdDate']).max()` (line 115): the
maximum over the batch of each row's effective change time.  Over `Nat`,
folding `max` from 0 computes the maximum of a non-empty list. -/
def batchMaxChangeTime (rows : List Row) : Nat :=
  (rows.map effectiveChangeTime).foldl Nat.max 0

/-! ## Watermark store (`get_last_extract_timestamp`, string level) -/

/-- Outcome of the `s3_client.get_object` call for the watermark blob,
covering exactly the branches of `get_last_extract_timestamp`
(mysql_to_s3.py lines 21–37). -/
inductive S3GetObjectResult where
  | ok (body : String)
  | noSuchKey
  | noSuchBucket
  | clientError
  | unexpectedError
deriving DecidableEq, Repr

/-- Python's `str.strip()` over the ASCII whitespace characters it removes. -/
def isPySpace (c : Char) : Bool :=
  c == ' ' || c == '\t' || c == '\n' || c == '\r' || c == '\x0b' || c == '\x0c'

/-- Python `s.strip()`: drop leading and trailing whitespace. -/
def pyStrip (s : String) : String :=
  (((s.toList.dropWhile isPySpace).reverse.dropWhile isPySpace).reverse).asString

/-- `get_last_extract_timestamp` (mysql_to_s3.py lines 21–37): returns the
stored blob (decoded and stripped) on success, and the epoch default string
on every failure path (`NoSuchKey`, `NoSuchBucket`, `ClientError`, any other
exception).  Total: no branch raises. -/
def get_last_extract_timestamp : S3GetObjectResult → String
  | .ok body => pyStrip body
  | .noSuchKey => "1970-01-01 00:00:00"
  | .noSuchBucket => "1970-01-01 00:00:00"
  | .clientError => "1970-01-01 00:00:00"
  | .unexpectedError => "1970-01-01 00:00:00"

/-! ## Extraction runner: per-table run model -/

/-- Failure injection for the external calls made while processing one
table.  `readFails` covers every non-success branch of
`get_last_extract_timestamp` (which then yields the epoch default);
`queryFails` is `pd.read_sql` raising; `csvFails` is `df.to_csv` raising;
`uploadFails` is `s3_client.upload_file` raising; `saveFails` is the
`put_object` inside `save_last_extract_timestamp` raising (caught there,
never propagated). -/
structure TableEnv where
  readFails : Bool
  queryFails : Bool
  csvFails : Bool
  uploadFails : Bool
  saveFails : Bool
deriving DecidableEq, Repr

/-- Observable per-table events, in the order the code emits them. -/
inductive RunEvent where
  | queryOk
  | csvWritten
  | uploadOk
  | watermarkSaved
  | saveFailed
  | tableFailed
deriving DecidableEq, Repr

/-- Result of processing one table: connection state afterwards, the
watermark store state for that table afterwards, the event trace, and
whether the per-table `except` branch was taken. -/
structure TableResult where
  connOpen : Bool
  stored : Option Nat
  trace : List RunEvent
  failed : Bool
deriving DecidableEq, Repr

/-- Watermark read at run start, at the time-axis level: the stored value if
present and readable, else the epoch default (0).  Mirrors
`get_last_extract_timestamp`: every failure path degrades to the default. -/
def readWatermark (stored : Option Nat) (readFails : Bool) : Nat :=
  if readFails then 0 else stored.getD 0

/-- One iteration of the table loop of `lambda_handler`
(mysql_to_s3.py lines 87–130).  `connOpen` is the state of the shared MySQL
connection entering this iteration; `stored` the watermark store state for
this table; `rows` the table's rows.  Control flow transcribed from the
source: `pd.read_sql` on a closed connection, or any injected failure up to
the upload, lands in the per-table `except` branch, which calls
`conn.close()` and leaves the watermark untouched; `save_last_extract_timestamp`
catches its own exceptions, so a failed save does not take the `except`
branch. -/
def processTable (env : TableEnv) (connOpen : Bool) (stored : Option Nat)
    (rows : List Row) : TableResult :=
  let lastExtract := readWatermark stored env.readFails
  if !connOpen || env.queryFails then
    -- `pd.read_sql` raises → except: log, `conn.close()`
    { connOpen := false, stored := stored, trace := [.tableFailed], failed := true }
  else
    let df := selectRows lastExtract rows
    if df.isEmpty then
      -- empty dataframe branch: no artifact, no watermark write
      { connOpen := connOpen, stored := stored, trace := [.queryOk], failed := false }
    else if env.csvFails then
      -- `df.to_csv` raises → except: `conn.close()`
      { connOpen := false, stored := stored,
        trace := [.queryOk, .tableFailed], failed := true }
    else if env.uploadFails then
      -- `s3_client.upload_file` raises → except: `conn.close()`
      { connOpen := false, stored := stored,
        trace := [.queryOk, .csvWritten, .tableFailed], failed := true }
    else if env.saveFails then
      -- upload succeeded; `put_object` failed inside save (caught there)
      { connOpen := connOpen, stored := stored,
        trace := [.queryOk, .csvWritten, .uploadOk, .saveFailed], failed := false }
    else
      { connOpen := connOpen, stored := some (batchMaxChangeTime df),
        trace := [.queryOk, .csvWritten, .uploadOk, .watermarkSaved], failed := false }

/-- The table loop of `lambda_handler`: tables processed sequentially, the
connection state threaded through (the per-table `except` branch closes the
shared connection but the `for` loop continues with the next table). -/
def runTables (connOpen : Bool) :
    List (TableEnv × Option Nat × List Row) → List TableResult
  | [] => []
  | (env, stored, rows) :: rest =>
    let r := processTable env connOpen stored rows
    r :: runTables r.connOpen rest

/-- Checks that in a trace every watermark-persistence event
(`watermarkSaved` or `saveFailed`, i.e. the persistence step being reached
at all) occurs strictly after a successful upload event.  `seenUpload`
records whether `uploadOk` has occurred in the prefix already consumed. -/
def persistAfterUploadAux : List RunEvent → Bool → Bool
  | [], _ => true
  | e :: rest, seenUpload =>
    if e == RunEvent.watermarkSaved || e == RunEvent.saveFailed then
      seenUpload && persistAfterUploadAux rest seenUpload
    else
      persistAfterUploadAux rest (seenUpload || e == RunEvent.uploadOk)

/-- The upload-then-persist ordering property of a trace. -/
def persistOnlyAfterUpload (tr : List RunEvent) : Bool :=
  persistAfterUploadAux tr false

/-! ## Credential phase of `lambda_handler` -/

/-- Outcome of `ssm_client.get_parameter`, covering the branches of
`get_para` (mysql_to_s3.py lines 48–58). -/
inductive SsmResult where
  | ok (value : String)
  | parameterNotFound
  | clientError
deriving DecidableEq, Repr

/-- `get_para`: the parameter's value on success; the empty string on
`ParameterNotFound` and on any other client error (fails soft). -/
def get_para : SsmResult → String
  | .ok value => value
  | .parameterNotFound => ""
  | .clientError => ""

/-- State after the credential phase of `lambda_handler`
(mysql_to_s3.py lines 67–82): both credentials fetched via `get_para`;
`credsOk` is the Python truthiness test `if rds_username and rds_password`
(logging only); the code then unconditionally enters the `try` block and
calls `mysql.connector.connect`, so `connectAttempted` is always true. -/
structure CredPhase where
  username : String
  password : String
  credsOk : Bool
  connectAttempted : Bool
deriving DecidableEq, Repr

/-- The credential phase of `lambda_handler` as written in the source. -/
def credentialPhase (userRes passRes : SsmResult) : CredPhase :=
  let rds_username := get_para userRes
  let rds_password := get_para passRes
  { username := rds_username
    password := rds_password
    credsOk := !rds_username.isEmpty && !rds_password.isEmpty
    connectAttempted := true }

/-! ## Log parser side (`RDStoS3LogFileParser.py`) -/

/-- One entry of the `logEvents` array: `{timestamp: epoch-millis,
message: string}`. -/
structure LogEvent where
  timestamp : Nat
  message : String
deriving DecidableEq, Repr

/-- Zero-pad a number to two digits, as `strftime` does for `%m %d %H %M %S`. -/
def pad2 (n : Nat) : String :=
  if n < 10 then "0" ++ toString n else toString n

/-- Civil date from a count of days since 1970-01-01, proleptic Gregorian
(the computation behind `datetime.utcfromtimestamp`).  Returns
(year, month, day). -/
def civilFromDays (days : Nat) : Nat × Nat × Nat :=
  let z := days + 719468
  let era := z / 146097
  let doe := z % 146097
  let yoe := (doe - doe / 1460 + doe / 36524 - doe / 146096) / 365
  let y := yoe + era * 400
  let doy := doe - (365 * yoe + yoe / 4 - yoe / 100)
  let mp := (5 * doy + 2) / 153
  let d := doy - (153 * mp + 2) / 5 + 1
  let m := if mp < 10 then mp + 3 else mp - 9
  (if m <= 2 then y + 1 else y, m, d)

/-- `datetime.utcfromtimestamp(secs).strftime('%Y-%m-%d %H:%M:%S')`: render
epoch seconds as a `YYYY-MM-DD HH:MM:SS` UTC timestamp string. -/
def formatTimestamp (secs : Nat) : String :=
  let days := secs / 86400
  let rem := secs % 86400
  let ymd := civilFromDays days
  toString ymd.1 ++ "-" ++ pad2 ymd.2.1 ++ "-" ++ pad2 ymd.2.2 ++ " "
    ++ pad2 (rem / 3600) ++ ":" ++ pad2 (rem % 3600 / 60) ++ ":" ++ pad2 (rem % 60)

/-- `message.replace("\t", " ")`: each tab character becomes one space. -/
def tabsToSpaces (s : String) : String :=
  (s.toList.map fun c => if c == '\t' then ' ' else c).asString

/-- The line built for one log event (RDStoS3LogFileParser.py lines 30–35):
`"<timestamp> - <message>"` with the timestamp rendered from
`timestamp / 1000` epoch seconds and the message tab-replaced then
stripped. -/
def formatLogEvent (e : LogEvent) : String :=
  formatTimestamp (e.timestamp / 1000) ++ " - " ++ pyStrip (tabsToSpaces e.message)

/-- The `for event in log_events` loop (lines 28–35), appending formatted
lines to `messages` in entry order. -/
def extractMessages : List LogEvent → List String → List String
  | [], messages => messages
  | e :: rest, messages => extractMessages rest (messages ++ [formatLogEvent e])

/-- The JSON document produced by `json.loads` on the decompressed payload,
to the depth the handler inspects it: `logEvents` is `some events` when the
key is present and `none` when absent (then `log_json.get('logEvents', [])`
yields the empty list). -/
structure LogDoc where
  logEvents : Option (List LogEvent)
deriving DecidableEq, Repr

/-- Outcome of `json.loads(log_text)`: a document, or a `JSONDecodeError`. -/
inductive DecodeResult where
  | ok (doc : LogDoc)
  | jsonError
deriving DecidableEq, Repr

/-- How the handler run ends: a returned `{statusCode, body}` response, or
an uncaught `NameError` (the S3-write path references the undefined names
`ERROR_BUCKET_NAME` and `s3_key`, and the surrounding `try` catches only
`NoSuchKey`). -/
inductive ParserOutcome where
  | response (statusCode : Nat) (body : String)
  | nameError (name : String)
deriving DecidableEq, Repr

/-- Result of one log-parser handler run: the outcome, the `messages` list
built before the outcome, and the keys of objects written to storage. -/
structure ParserRun where
  outcome : ParserOutcome
  messages : List String
  formattedLog : Option String
  writes : List String
deriving DecidableEq, Repr

/-- `lambda_handler` of RDStoS3LogFileParser.py, from the point where the
payload has been base64-decoded, gunzipped and UTF-8 decoded (the
`decoded` parameter stands for the `json.loads` outcome on that text).
A `JSONDecodeError` returns the 500 format-error response with nothing
written.  Otherwise the messages are built; if non-empty, the code reaches
`s3_client.download_file(ERROR_BUCKET_NAME, ...)` and raises `NameError`
before any write; if empty, it returns the 200 no-messages response. -/
def logParserHandler (decoded : DecodeResult) : ParserRun :=
  match decoded with
  | .jsonError =>
    { outcome := .response 500 "Log format error", messages := [],
      formattedLog := none, writes := [] }
  | .ok doc =>
    let log_events := doc.logEvents.getD []
    let messages := extractMessages log_events []
    if messages.isEmpty then
      { outcome := .response 200 "No errors or warnings found in logs"
        messages := messages, formattedLog := none, writes := [] }
    else
      -- `formatted_log = "\n".join(messages)` happens first (line 39); the
      -- `try` body then hits the undefined `ERROR_BUCKET_NAME`.
      { outcome := .nameError "ERROR_BUCKET_NAME"
        messages := messages
        formattedLog := some (String.intercalate "\n" messages), writes := [] }

/-! ## Helper lemmas -/

theorem le_foldl_max (a : Nat) (l : List Nat) : a ≤ l.foldl Nat.max a := by
  induction l generalizing a with
  | nil => exact Nat.le_refl a
  | cons x xs ih =>
    exact Nat.le_trans (Nat.le_max_left a x) (ih (Nat.max a x))

theorem mem_le_foldl_max (a : Nat) (l : List Nat) :
    ∀ x ∈ l, x ≤ l.foldl Nat.max a := by
  induction l generalizing a with
  | nil => intro x hx; cases hx
  | cons y ys ih =>
    intro x hx
    rcases List.mem_cons.mp hx with h | h
    · subst h
      exact Nat.le_trans (Nat.le_max_right a x) (le_foldl_max _ ys)
    · exact ih (Nat.max a y) x h

theorem foldl_max_mem (a : Nat) (l : List Nat) :
    l.foldl Nat.max a = a ∨ l.foldl Nat.max a ∈ l := by
  induction l generalizing a with
  | nil => exact Or.inl rfl
  | cons y ys ih =>
    rcases ih (Nat.max a y) with h | h
    · rcases Nat.le_total a y with hle | hle
      · have hm : Nat.max a y = y := Nat.max_eq_right hle
        refine Or.inr ?_
        rw [List.foldl_cons, h, hm]
        exact List.mem_cons_self y ys
      · have hm : Nat.max a y = a := Nat.max_eq_left hle
        refine Or.inl ?_
        rw [List.foldl_cons, h, hm]
    · exact Or.inr (List.mem_cons_of_mem y h)

theorem mem_le_batchMax (rows : List Row) :
    ∀ r ∈ rows, effectiveChangeTime r ≤ batchMaxChangeTime rows := by
  intro r hr
  exact mem_le_foldl_max 0 _ _ (List.mem_map_of_mem effectiveChangeTime hr)

theorem batchMax_attained (rows : List Row) (h : rows ≠ []) :
    ∃ r ∈ rows, effectiveChangeTime r = batchMaxChangeTime rows := by
  rcases foldl_max_mem 0 (rows.map effectiveChangeTime) with h0 | hm
  · obtain ⟨r, rest, rfl⟩ := List.exists_cons_of_ne_nil h
    refine ⟨r, List.mem_cons_self r rest, ?_⟩
    have hle := mem_le_batchMax (r :: rest) r (List.mem_cons_self r rest)
    have hz : batchMaxChangeTime (r :: rest) = 0 := h0
    omega
  · obtain ⟨r, hr, he⟩ := List.mem_map.mp hm
    exact ⟨r, hr, he⟩

theorem mem_selectRows_lt (w : Nat) (rows : List Row) (r : Row)
    (h : r ∈ selectRows w rows) : w < effectiveChangeTime r := by
  have hq : rowQualifies w r = true := (List.mem_filter.mp h).2
  rcases r with ⟨md, cd⟩
  cases md with
  | none => simpa [rowQualifies, effectiveChangeTime] using hq
  | some m => simpa [rowQualifies, effectiveChangeTime] using hq

theorem isEmpty_false_of_ne_nil {α : Type} {l : List α} (h : l ≠ []) :
    l.isEmpty = false := by
  cases l with
  | nil => exact absurd rfl h
  | cons x xs => rfl

theorem extractMessages_append (l : List LogEvent) (acc : List String) :
    extractMessages l acc = acc ++ l.map formatLogEvent := by
  induction l generalizing acc with
  | nil => simp [extractMessages]
  | cons e rest ih => simp [extractMessages, ih]

/-! ## Claim theorems -/

/-- Claim C2: a row qualifies for the change-selection query built from
watermark `W` iff `(modifiedDate is not null AND modifiedDate > W) OR
(modifiedDate is null AND createdDate > W)`, with strictly-greater
comparison; consequently a row whose effective change time is `≤ W` is
never selected. -/
theorem changeSelector_strict (w : Nat) (r : Row) :
    (effectiveChangeTime r ≤ w → rowQualifies w r = false) ∧
    (rowQualifies w r = true ↔
      ((∃ m, r.modifiedDate = some m ∧ w < m) ∨
        (r.modifiedDate = none ∧ w < r.createdDate))) := by
  rcases r with ⟨md, cd⟩
  cases md with
  | none =>
    constructor
    · intro h
      simp only [effectiveChangeTime, Option.getD] at h
      simp [rowQualifies, Nat.not_lt.mpr h]
    · simp [rowQualifies]
  | some m =>
    constructor
    · intro h
      simp only [effectiveChangeTime, Option.getD] at h
      simp [rowQualifies, Nat.not_lt.mpr h]
    · simp [rowQualifies]

/-- Witness for C2 at a concrete input: a row with effective change time
3 ≤ 5 is not selected under watermark 5. -/
theorem changeSelector_strict_witness :
    rowQualifies 5 { modifiedDate := some 3, createdDate := 10 } = false :=
  (changeSelector_strict 5 { modifiedDate := some 3, createdDate := 10 }).1 (by decide)

/-- Claim C3: on a fully successful non-empty run, the persisted watermark
equals the maximum over the batch of each row's effective change time
(`modifiedDate` if non-null else `createdDate`, the same rule the selector
uses), this maximum is attained by a row of the batch, bounds the whole
batch, and is `≥` the watermark the run started from. -/
theorem watermark_new_value (env : TableEnv) (connOpen : Bool)
    (stored : Option Nat) (rows : List Row) (w : Nat) (batch : List Row)
    (hconn : connOpen = true) (hq : env.queryFails = false)
    (hcsv : env.csvFails = false) (hup : env.uploadFails = false)
    (hsave : env.saveFails = false)
    (hw : w = readWatermark stored env.readFails)
    (hbatch : batch = selectRows w rows) (hne : batch ≠ []) :
    (processTable env connOpen stored rows).stored
        = some (batchMaxChangeTime batch) ∧
    (∀ r ∈ batch, effectiveChangeTime r ≤ batchMaxChangeTime batch) ∧
    (∃ r ∈ batch, effectiveChangeTime r = batchMaxChangeTime batch) ∧
    w ≤ batchMaxChangeTime batch := by
  subst hconn hw hbatch
  have hdf := isEmpty_false_of_ne_nil hne
  refine ⟨?_, mem_le_batchMax _, batchMax_attained _ hne, ?_⟩
  · simp [processTable, hq, hcsv, hup, hsave, hdf]
  · obtain ⟨r, hr, he⟩ := batchMax_attained _ hne
    have := mem_selectRows_lt _ rows r hr
    omega

/-- Witness for C3 at a concrete input: watermark 3, one qualifying row with
`modifiedDate = 5`; the new stored watermark is 5. -/
theorem watermark_new_value_witness :
    (processTable ⟨false, false, false, false, false⟩ true (some 3)
        [{ modifiedDate := some 5, createdDate := 2 }]).stored
      = some (batchMaxChangeTime
          (selectRows 3 [{ modifiedDate := some 5, createdDate := 2 }])) :=
  (watermark_new_value ⟨false, false, false, false, false⟩ true (some 3)
      [{ modifiedDate := some 5, createdDate := 2 }] 3
      (selectRows 3 [{ modifiedDate := some 5, createdDate := 2 }])
      rfl rfl rfl rfl rfl rfl rfl (by decide)).1

/-- Claim C4: the watermark read never raises: every failure branch
(`NoSuchKey`, `NoSuchBucket`, `ClientError`, any other exception) returns
the epoch default string `"1970-01-01 00:00:00"`, and on success it returns
the stored blob (UTF-8 decoded and stripped). -/
theorem watermarkGet_total (res : S3GetObjectResult) :
    ((∀ b, res ≠ S3GetObjectResult.ok b) →
      get_last_extract_timestamp res = "1970-01-01 00:00:00") ∧
    (∀ b, res = S3GetObjectResult.ok b →
      get_last_extract_timestamp res = pyStrip b) := by
  cases res with
  | ok b =>
    exact ⟨fun h => absurd rfl (h b), fun b' hb => by cases hb; rfl⟩
  | noSuchKey => exact ⟨fun _ => rfl, fun b' hb => by cases hb⟩
  | noSuchBucket => exact ⟨fun _ => rfl, fun b' hb => by cases hb⟩
  | clientError => exact ⟨fun _ => rfl, fun b' hb => by cases hb⟩
  | unexpectedError => exact ⟨fun _ => rfl, fun b' hb => by cases hb⟩

/-- Witness for C4 at a concrete input: a generic client error degrades to
the epoch default. -/
theorem watermarkGet_total_witness :
    get_last_extract_timestamp S3GetObjectResult.clientError
      = "1970-01-01 00:00:00" :=
  (watermarkGet_total S3GetObjectResult.clientError).1
    (fun _ h => S3GetObjectResult.noConfusion h)

/-- Claim C1: on a non-empty selection, the watermark-persistence step is
reached only after a successful upload (in every trace, `watermarkSaved` and
`saveFailed` occur only after `uploadOk`); and if serialization or upload
fails, the table's run is marked failed, the stored watermark is unchanged,
no persistence happens, and the next run reading the unchanged watermark
re-selects at least the same rows. -/
theorem uploadThenPersist (env : TableEnv) (connOpen : Bool)
    (stored : Option Nat) (rows : List Row)
    (hconn : connOpen = true) (hq : env.queryFails = false)
    (hne : selectRows (readWatermark stored env.readFails) rows ≠ []) :
    persistOnlyAfterUpload (processTable env connOpen stored rows).trace = true ∧
    (env.csvFails = true ∨ env.uploadFails = true →
      (processTable env connOpen stored rows).failed = true ∧
      (processTable env connOpen stored rows).stored = stored ∧
      RunEvent.watermarkSaved ∉ (processTable env connOpen stored rows).trace ∧
      ∀ r ∈ selectRows (readWatermark stored env.readFails) rows,
        r ∈ selectRows
            (readWatermark (processTable env connOpen stored rows).stored
              env.readFails) rows) := by
  subst hconn
  have hdf := isEmpty_false_of_ne_nil hne
  rcases env with ⟨rf, qf, cf, uf, sf⟩
  simp only at hq
  subst hq
  cases cf <;> cases uf <;> cases sf <;>
    simp_all [processTable, persistOnlyAfterUpload, persistAfterUploadAux]

/-- Witness for C1 at a concrete input: serialization failure (`to_csv`
raises) on a non-empty selection leaves the stored watermark at its old
value. -/
theorem uploadThenPersist_witness :
    (processTable ⟨false, false, true, false, false⟩ true (some 3)
        [{ modifiedDate := some 5, createdDate := 2 }]).stored = some 3 :=
  ((uploadThenPersist ⟨false, false, true, false, false⟩ true (some 3)
      [{ modifiedDate := some 5, createdDate := 2 }] rfl rfl
      (by decide)).2 (Or.inl rfl)).2.1

/-- Claim C5: a run whose selection returns zero rows ends successfully with
the stored watermark unchanged, the connection still open, and no artifact
activity: no CSV written, no upload, no watermark save. -/
theorem emptySelection_noop (env : TableEnv) (connOpen : Bool)
    (stored : Option Nat) (rows : List Row)
    (hconn : connOpen = true) (hq : env.queryFails = false)
    (hempty : selectRows (readWatermark stored env.readFails) rows = []) :
    (processTable env connOpen stored rows).stored = stored ∧
    (processTable env connOpen stored rows).failed = false ∧
    (processTable env connOpen stored rows).connOpen = true ∧
    RunEvent.uploadOk ∉ (processTable env connOpen stored rows).trace ∧
    RunEvent.watermarkSaved ∉ (processTable env connOpen stored rows).trace ∧
    RunEvent.csvWritten ∉ (processTable env connOpen stored rows).trace := by
  subst hconn
  simp_all [processTable]

/-- Witness for C5 at a concrete input: under watermark 10 a table whose
only row changed at time 5 selects nothing, and the run is a no-op. -/
theorem emptySelection_noop_witness :
    (processTable ⟨false, false, false, false, false⟩ true (some 10)
        [{ modifiedDate := some 5, createdDate := 2 }]).stored = some 10 :=
  (emptySelection_noop ⟨false, false, false, false, false⟩ true (some 10)
      [{ modifiedDate := some 5, createdDate := 2 }] rfl rfl (by decide)).1

/-- Claim C6 (failing-input evaluation): with two tables where the first
table's query raises and the second table has a qualifying row and no
injected failure of its own, the source's per-table `except` branch closes
the shared connection, so the second table is attempted on a closed
connection and fails with its watermark not advanced — while the same
second-table input processed on an open connection succeeds.  This
contradicts the claim that remaining tables are attempted with a usable
data-source connection. -/
theorem tableFailure_closes_shared_connection :
    runTables true
        [(⟨false, true, false, false, false⟩, some 0,
            [{ modifiedDate := some 5, createdDate := 2 }]),
         (⟨false, false, false, false, false⟩, some 0,
            [{ modifiedDate := some 5, createdDate := 2 }])]
      = [{ connOpen := false, stored := some 0,
           trace := [RunEvent.tableFailed], failed := true },
         { connOpen := false, stored := some 0,
           trace := [RunEvent.tableFailed], failed := true }] ∧
    (processTable ⟨false, false, false, false, false⟩ true (some 0)
        [{ modifiedDate := some 5, createdDate := 2 }]).failed = false := by
  decide

/-- Claim C7 counterexample: when the credential provider returns an empty
username (parameter not found), the handler as written still attempts the
MySQL connection — the empty credential does not prevent the connect. -/
theorem emptyCredential_still_connects :
    (credentialPhase SsmResult.parameterNotFound (SsmResult.ok "pw")).username
        = "" ∧
    (credentialPhase SsmResult.parameterNotFound
        (SsmResult.ok "pw")).connectAttempted = true := by
  decide

/-- Claim C7 amended: when either credential comes back empty, the handler
logs a credential failure (the `if rds_username and rds_password` truthiness
test is false) but still attempts the data-source connection. -/
theorem emptyCredential_logged_not_fatal (userRes passRes : SsmResult)
    (h : get_para userRes = "" ∨ get_para passRes = "") :
    (credentialPhase userRes passRes).credsOk = false ∧
    (credentialPhase userRes passRes).connectAttempted = true := by
  have he : ("" : String).isEmpty = true := rfl
  rcases h with h | h <;> simp [credentialPhase, h, he]

/-- Witness for the amended C7 at a concrete input. -/
theorem emptyCredential_logged_not_fatal_witness :
    (credentialPhase SsmResult.parameterNotFound
        (SsmResult.ok "pw")).credsOk = false :=
  (emptyCredential_logged_not_fatal SsmResult.parameterNotFound
      (SsmResult.ok "pw") (Or.inl rfl)).1

/-- Claim C8: a valid decoded JSON payload with N `logEvents` entries
yields exactly N formatted lines, in entry order, each
`"<timestamp> - <message>"` with the timestamp rendered `YYYY-MM-DD
HH:MM:SS` in UTC from `timestamp / 1000` epoch seconds and the message
tab-replaced then trimmed; when non-empty, the formatted log is those lines
joined with newline separators. -/
theorem logFormatting_lines (doc : LogDoc) (events : List LogEvent)
    (h : doc.logEvents = some events) :
    (logParserHandler (DecodeResult.ok doc)).messages
        = events.map (fun e =>
            formatTimestamp (e.timestamp / 1000) ++ " - "
              ++ pyStrip (tabsToSpaces e.message)) ∧
    (logParserHandler (DecodeResult.ok doc)).messages.length = events.length ∧
    (events ≠ [] →
      (logParserHandler (DecodeResult.ok doc)).formattedLog
        = some (String.intercalate "\n"
            (events.map (fun e =>
              formatTimestamp (e.timestamp / 1000) ++ " - "
                ++ pyStrip (tabsToSpaces e.message))))) := by
  have hmsg : extractMessages events [] = events.map formatLogEvent := by
    simpa using extractMessages_append events []
  by_cases hne : events = []
  · subst hne
    simp [logParserHandler, h, extractMessages]
  · have hne' : events.map formatLogEvent ≠ [] := by
      simpa using hne
    simp [logParserHandler, h, hmsg, isEmpty_false_of_ne_nil hne',
      formatLogEvent]
    intro _
    rfl

/-- Witness for C8 at a concrete input: one entry at epoch-millis
1609459200123 with a tabbed message becomes the expected single line. -/
theorem logFormatting_lines_witness :
    (logParserHandler (DecodeResult.ok
        ⟨some [{ timestamp := 1609459200123, message := "\thello\tworld\t" }]⟩)).messages
      = ["2021-01-01 00:00:00 - hello world"] :=
  ((logFormatting_lines
      ⟨some [{ timestamp := 1609459200123, message := "\thello\tworld\t" }]⟩
      [{ timestamp := 1609459200123, message := "\thello\tworld\t" }] rfl).1).trans
    (by decide)

/-- Claim C9: a payload that fails JSON decoding yields the 500
"Log format error" response, no formatted lines, and zero storage writes —
the handler does not crash on this path. -/
theorem malformedPayload_formatError :
    logParserHandler DecodeResult.jsonError
      = { outcome := ParserOutcome.response 500 "Log format error",
          messages := [], formattedLog := none, writes := [] } := rfl

/-- Claim C10: valid JSON with no `logEvents` key (or an empty `logEvents`
list) returns the 200 "No errors or warnings found in logs" response, with
zero formatted lines and no storage write. -/
theorem noLogEvents_success (doc : LogDoc)
    (h : doc.logEvents = none ∨ doc.logEvents = some []) :
    logParserHandler (DecodeResult.ok doc)
      = { outcome := ParserOutcome.response 200
            "No errors or warnings found in logs",
          messages := [], formattedLog := none, writes := [] } := by
  rcases h with h | h <;> simp [logParserHandler, h, extractMessages]

/-- Witness for C10 at a concrete input: a document without a `logEvents`
key. -/
theorem noLogEvents_success_witness :
    logParserHandler (DecodeResult.ok ⟨none⟩)
      = { outcome := ParserOutcome.response 200
            "No errors or warnings found in logs",
          messages := [], formattedLog := none, writes := [] } :=
  noLogEvents_success ⟨none⟩ (Or.inl rfl)

end FoodDelivery
